import Mathlib

/-!
Verification of the Ask-Presenta PDF-to-presentation pipeline.

This file gives a shallow embedding of the string-processing, layout-selection,
slide-assembly, export and pipeline logic of the repository
(`modules/agents.py`, `modules/helpers.py`, `modules/slide_generator.py`,
`modules/pptx_converter.py`, `modules/template_pptx_converter.py`,
`modules/processor.py`), and proves the specified properties about it.

Python strings are modelled as `List Char`.  External collaborators (the
chat-completion model, the image API, PyPDF2 page objects, the filesystem)
are modelled as explicit parameters: for example the model response handed to
the bullet-point extractor is a `List Char` together with the outcome of
`ast.literal_eval` on it, and the filesystem is a predicate `List Char → Bool`.
-/

/-- Convert a Lean string literal to the `List Char` representation used
throughout this development. -/
def lit (s : String) : List Char := s.toList

/-- Python whitespace characters recognised by `str.strip()` (ASCII range). -/
def pySpace (c : Char) : Bool :=
  c = ' ' || c = '\t' || c = '\n' || c = '\r' || c = '\x0b' || c = '\x0c'

/-- Drop trailing characters satisfying `p` (helper for `str.rstrip`). -/
def dropTrailing (p : Char → Bool) (l : List Char) : List Char :=
  (l.reverse.dropWhile p).reverse

/-- Python `str.strip()`: remove leading and trailing whitespace. -/
def trimWS (l : List Char) : List Char :=
  dropTrailing pySpace (l.dropWhile pySpace)

/-- Python `str.lower()` (adequate for the ASCII keywords the code matches). -/
def lowerStr (l : List Char) : List Char := l.map Char.toLower

/-- Python `needle in haystack` substring test. -/
def containsSub (needle : List Char) : List Char → Bool
  | [] => needle.isEmpty
  | c :: rest => needle.isPrefixOf (c :: rest) || containsSub needle rest

/-- The four slide layouts produced by `create_html_slide`
(`modules/slide_generator.py` lines 87-101).  The Python code uses the
string tags "image_focus", "text_focus", "comparison", "balanced". -/
inductive LayoutType where
  | balanced
  | text_focus
  | image_focus
  | comparison
deriving DecidableEq, Repr

/-- Title keywords that trigger the image-forward layout
(`modules/slide_generator.py` line 80). -/
def image_keywords : List (List Char) :=
  [lit "visual", lit "diagram", lit "chart", lit "picture", lit "image", lit "photo"]

/-- The layout classifier: the decision block of `create_html_slide`
(`modules/slide_generator.py` lines 76-101), as a pure function of the
bullet-point count, the (already stripped) slide title, and the section
content length.  Branch order is exactly the Python `if`/`elif` chain. -/
def classify (num_bullet_points : Nat) (title : List Char) (content_length : Nat) :
    LayoutType :=
  let title_lower := lowerStr title
  let has_image_keywords := image_keywords.any (fun kw => containsSub kw title_lower)
  if num_bullet_points ≤ 2 && has_image_keywords then .image_focus
  else if 5 ≤ num_bullet_points then .text_focus
  else if containsSub (lit "comparison") title_lower
       || containsSub (lit "versus") title_lower
       || containsSub (lit "vs") title_lower then .comparison
  else if 500 < content_length then .text_focus
  else .balanced

/-- The layout rules exactly as the specification words them (§4.1): five
rules evaluated in priority order, first match winning, with case-insensitive
substring matching expressed through `List.IsInfix` on the lowered title. -/
def classifySpec (bulletCount : Nat) (titleText : List Char) (contentLength : Nat) :
    LayoutType :=
  if bulletCount ≤ 2 ∧ ∃ kw ∈ image_keywords, kw <:+: lowerStr titleText then .image_focus
  else if 5 ≤ bulletCount then .text_focus
  else if (lit "comparison") <:+: lowerStr titleText
        ∨ (lit "versus") <:+: lowerStr titleText
        ∨ (lit "vs") <:+: lowerStr titleText then .comparison
  else if 500 < contentLength then .text_focus
  else .balanced

/-- `KeySection` from `modules/models.py`: one topical unit extracted from the
document (`importance` and `visual_elements` are carried but unused by the
verified logic). -/
structure KeySection where
  title : List Char
  content : List Char
  importance : Nat
  themes : List (List Char)
  visual_elements : List (List Char)
deriving DecidableEq, Repr, Inhabited

/-- `ImageInfo` from `modules/models.py`: metadata of a generated-and-saved
image. -/
structure ImageInfo where
  file_path : List Char
  file_name : List Char
  base64_data : List Char
  width : Nat
  height : Nat
deriving DecidableEq, Repr, Inhabited

/-- `HTMLSlide` from `modules/models.py`: the final deliverable unit. -/
structure HTMLSlide where
  html_content : List Char
  title : List Char
  section_title : List Char
  section_content : List Char
deriving DecidableEq, Repr, Inhabited

/-- Split a character list at every occurrence of `sep` (Python
`str.split(sep)` for a one-character separator). -/
def splitOnChar (sep : Char) : List Char → List (List Char)
  | [] => [[]]
  | d :: rest =>
    match splitOnChar sep rest with
    | [] => [[]]
    | s :: ss => if d = sep then [] :: s :: ss else (d :: s) :: ss

/-- Pair up the segments that lie between double quotes, skipping empty
bodies, mirroring how `re.findall(r'"([^"]+)"', text)` pairs quote characters
left to right and requires a non-empty body
(`modules/agents.py` lines 161-162). -/
def pairSegs : List (List Char) → List (List Char)
  | [] => []
  | [_] => []
  | a :: b :: rest =>
    if a.isEmpty then pairSegs (b :: rest) else a :: pairSegs rest

/-- All double-quoted substrings of `text`, in order:
`re.findall(r'"([^"]+)"', text)`. -/
def findQuoted (text : List Char) : List (List Char) :=
  match splitOnChar '"' text with
  | [] => []
  | _ :: t => pairSegs t

/-- Does `\s*\]` match at `l`?  The greedy whitespace run collapses to a
single possibility here: every character it could consume is whitespace and
therefore not `]`, so the run must consume exactly the maximal whitespace
run and the first non-whitespace character must be `]`. -/
def closeAt (l : List Char) : Bool :=
  match l.dropWhile pySpace with
  | ']' :: _ => true
  | _ => false

/-- The lazy `(.+?)` of the bracket regex `\[\s*(.+?)\s*\]`: consume one
more character (the dot excludes newlines), succeeding with the shortest
body after which `\s*\]` matches.  `acc` is the body read so far, in
reverse. -/
def contentFrom (acc : List Char) : List Char → Option (List Char)
  | [] => none
  | c :: rest =>
    if c = '\n' then none
    else if closeAt rest then some (c :: acc).reverse
    else contentFrom (c :: acc) rest

/-- The greedy leading `\s*` of the bracket regex, with backtracking:
`ws_rev` holds the whitespace currently consumed (in reverse, so the most
recently consumed character is first); each time the lazy body fails, one
whitespace character is handed back to the body, the engine's LIFO
backtracking order. -/
def wsBacktrack : List Char → List Char → Option (List Char)
  | [], l => contentFrom [] l
  | c :: ws_rev, l =>
    match contentFrom [] l with
    | some g => some g
    | none => wsBacktrack ws_rev (c :: l)

/-- One attempt of `\s*(.+?)\s*\]` just after an opening `[`: the leading
`\s*` starts at the maximal whitespace run of `rest` and backtracks
downward. -/
def bracketMatchAt (rest : List Char) : Option (List Char) :=
  wsBacktrack (rest.takeWhile pySpace).reverse (rest.dropWhile pySpace)

/-- The captured group of `re.search(r'\[\s*(.+?)\s*\]', text)`
(`modules/agents.py` lines 166-167): the match starts at the leftmost `[`
that admits one; within it the greedy leading `\s*` is tried longest-first
and the lazy dot body shortest-first.  In particular a whitespace-only
bracket body such as `"[ ]"` matches, capturing a whitespace character. -/
def bracketGroup : List Char → Option (List Char)
  | [] => none
  | c :: rest =>
    if c = '[' then
      match bracketMatchAt rest with
      | some g => some g
      | none => bracketGroup rest
    else bracketGroup rest

/-- Strip leading and trailing quote characters: Python `.strip('"\'')`. -/
def stripQuotes (l : List Char) : List Char :=
  dropTrailing (fun c => c = '"' || c = '\'') (l.dropWhile (fun c => c = '"' || c = '\''))

/-- Fallback (b) of the bullet extractor (`modules/agents.py` lines 165-170):
split the bracketed list body on commas and clean each piece with
`bp.strip().strip('"\'')`. -/
def bracketFallback (text : List Char) : List (List Char) :=
  match bracketGroup text with
  | none => []
  | some g => (splitOnChar ',' g).map (fun bp => stripQuotes (trimWS bp))

/-- Python `line.startswith(c)` for a single character. -/
def headIs (c : Char) (l : List Char) : Bool :=
  match l with
  | [] => false
  | d :: _ => d = c

/-- Fallback (c) of the bullet extractor (`modules/agents.py` lines 172-182):
scan lines for `-`, `*` or `[...]` markers and clean each matching line with
`line.lstrip('-*[] ').rstrip(']').strip()`. -/
def lineScan (text : List Char) : List (List Char) :=
  (splitOnChar '\n' text).filterMap (fun raw =>
    let line := trimWS raw
    if (headIs '-' line || headIs '*' line
        || (headIs '[' line && containsSub (lit "]") line)) then
      let cleaned :=
        trimWS (dropTrailing (fun c => c = ']')
          (line.dropWhile (fun c => c = '-' || c = '*' || c = '[' || c = ']' || c = ' ')))
      if cleaned.isEmpty then none else some cleaned
    else none)

/-- Final generic fallback bullets referencing the section title
(`modules/agents.py` lines 191-195). -/
def genericBullets (sec : KeySection) : List (List Char) :=
  [lit "Highlights key aspects of " ++ sec.title,
   lit "Provides essential insights",
   lit "Establishes important context"]

/-- `extract_key_bullet_points` (`modules/agents.py` lines 89-197) as a
function of the section and the model response.  `parsed` is the outcome of
`ast.literal_eval` on the response text followed by the list check and
element stringification (lines 138-148): `some l` when the response parsed as
a Python list (elements already stringified), `none` on `SyntaxError` or
`ValueError`, which sends the code down the fallback chain over the raw
response text. -/
def extract_key_bullet_points (sec : KeySection)
    (parsed : Option (List (List Char))) (response_text : List Char) :
    List (List Char) :=
  match parsed with
  | some bullet_points => bullet_points.take 5
  | none =>
    let bullet_points := findQuoted response_text
    let bullet_points :=
      if bullet_points.isEmpty then bracketFallback response_text else bullet_points
    let bullet_points :=
      if bullet_points.isEmpty then lineScan response_text else bullet_points
    let bullet_points :=
      if bullet_points.isEmpty && !sec.themes.isEmpty then
        (sec.themes.take 5).map (fun theme => lit "Explores " ++ theme)
      else bullet_points
    let bullet_points :=
      if bullet_points.isEmpty then genericBullets sec else bullet_points
    bullet_points.take 5

/-- The specification's reading of the fallback chain (§4.2): apply the
candidate producers in order and keep the first non-empty result. -/
def firstNonEmpty {α : Type} : List (List α) → List α
  | [] => []
  | l :: rest => if l.isEmpty then firstNonEmpty rest else l

/-- Decimal rendering of the animation delay `i * 0.15` used in the bullet
markup.  Python prints the nearest double (`"0.44999999999999996"` for
`i = 3`); we render the exact decimal instead — no claim inspects these
digits, and like the Python output they never contain markup characters. -/
def animationDelay (i : Nat) : List Char :=
  let n := i * 15
  lit (toString (n / 100)) ++ lit "." ++ lit (toString (n % 100))

/-- One compact bullet row (`generate_bullet_points_html`, text_focus branch,
`modules/slide_generator.py` lines 138-144). -/
def bulletItemCompact (i : Nat) (point : List Char) : List Char :=
  lit "\n            <div class=\"bullet-point compact\" style=\"animation-delay: "
    ++ animationDelay i ++ lit "s;\">\n                <div class=\"bullet-icon\">•</div>\n                <div class=\"bullet-text\">"
    ++ point ++ lit "</div>\n            </div>\n            "

/-- One comparison bullet item (`modules/slide_generator.py` lines 152-156,
161-165). -/
def bulletItemComparison (i : Nat) (point : List Char) : List Char :=
  lit "\n            <div class=\"bullet-point comparison-item\" style=\"animation-delay: "
    ++ animationDelay i ++ lit "s;\">\n                <div class=\"bullet-text\">"
    ++ point ++ lit "</div>\n            </div>\n            "

/-- One numbered callout bullet (`modules/slide_generator.py` lines 170-176). -/
def bulletItemHighlight (i : Nat) (point : List Char) : List Char :=
  lit "\n            <div class=\"bullet-point highlight\" style=\"animation-delay: "
    ++ animationDelay i ++ lit "s;\">\n                <div class=\"bullet-number\">"
    ++ lit (toString (i + 1))
    ++ lit "</div>\n                <div class=\"bullet-text\">"
    ++ point ++ lit "</div>\n            </div>\n            "

/-- One standard icon bullet row (`modules/slide_generator.py` lines
179-189); the inlined svg uses the secondary color `#007BC0`. -/
def bulletItemStandard (i : Nat) (point : List Char) : List Char :=
  lit "\n            <div class=\"bullet-point\" style=\"animation-delay: "
    ++ animationDelay i
    ++ lit "s;\">\n                <div class=\"bullet-icon\">\n                    <svg width=\"20\" height=\"20\" viewBox=\"0 0 24 24\" fill=\"none\" xmlns=\"http://www.w3.org/2000/svg\">\n                        <path d=\"M12 2C6.48 2 2 6.48 2 12C2 17.52 6.48 22 12 22C17.52 22 22 17.52 22 12C22 6.48 17.52 2 12 2ZM10 17L5 12L6.41 10.59L10 14.17L17.59 6.58L19 8L10 17Z\" fill=\"#007BC0\"/>\n                    </svg>\n                </div>\n                <div class=\"bullet-text\">"
    ++ point ++ lit "</div>\n            </div>\n            "

/-- `generate_bullet_points_html` (`modules/slide_generator.py` lines
121-190): bullet markup with layout-specific treatment; the comparison
layout splits the list at `len // 2` into two columns. -/
def generate_bullet_points_html (bullet_points : List (List Char))
    (layout_type : LayoutType) : List Char :=
  match layout_type with
  | .text_focus =>
    (bullet_points.enum.map (fun p => bulletItemCompact p.1 p.2)).flatten
  | .comparison =>
    let half := bullet_points.length / 2
    lit "<div class=\"comparison-container\">"
      ++ lit "<div class=\"comparison-column\">"
      ++ ((bullet_points.take half).enum.map (fun p => bulletItemComparison p.1 p.2)).flatten
      ++ lit "</div>"
      ++ lit "<div class=\"comparison-column\">"
      ++ ((bullet_points.drop half).enum.map
            (fun p => bulletItemComparison (p.1 + half) p.2)).flatten
      ++ lit "</div>"
      ++ lit "</div>"
  | .image_focus =>
    (bullet_points.enum.map (fun p => bulletItemHighlight p.1 p.2)).flatten
  | .balanced =>
    (bullet_points.enum.map (fun p => bulletItemStandard p.1 p.2)).flatten

/-- The transparent 1×1 png placeholder returned by `load_company_logo` when
no logo file is found (`modules/slide_generator.py` line 41). -/
def transparentLogo : List Char :=
  lit "iVBORw0KGgoAAAANSUhEUgAAAAEAAAABCAQAAAC1HAwCAAAAC0lEQVR42mNkYAAAAAYAAjCB0C8AAAAASUVORK5CYII="

/-- `load_company_logo` (`modules/slide_generator.py` lines 9-41): the
filesystem lookup is modelled by the parameter `fs_logo`, the base64 encoding
of the first candidate logo file that exists (`none` when none does, or on a
read error). -/
def load_company_logo (fs_logo : Option (List Char)) : List Char :=
  match fs_logo with
  | some encoded => encoded
  | none => transparentLogo

/-- Opening of the slide template up to the `<title>` interpolation
(`modules/slide_generator.py` lines 209-214). -/
def htmlDocStart : List Char :=
  lit "<!DOCTYPE html>
<html lang=\"en\">
<head>
    <meta charset=\"UTF-8\">
    <meta name=\"viewport\" content=\"width=device-width, initial-scale=1.0\">
    <title>"

/-- Stylesheet from `</title>` down to the first layout-conditional rule
(`modules/slide_generator.py` lines 214-281).  Literal braces of the CSS are
written `\x7b`/`\x7d`. -/
def cssA : List Char :=
  lit "</title>
    <style>
        /* Reset and base styles */
        * \x7b
            margin: 0;
            padding: 0;
            box-sizing: border-box;
        \x7d

        @import url(\x27https://fonts.googleapis.com/css2?family=Poppins:wght@300;400;500;600;700&display=swap\x27);

        body \x7b
            font-family: \x27Poppins\x27, \x27Segoe UI\x27, Roboto, Arial, sans-serif;
            color: #333333;
            background-color: #FFFFFF;
            line-height: 1.6;
            display: flex;
            justify-content: center;
            align-items: center;
            min-height: 100vh;
            padding: 20px;
        \x7d

        /* Slide container */
        .slide \x7b
            width: 1280px;
            height: 720px;
            background-color: #FFFFFF;
            box-shadow: 0 10px 40px rgba(0, 0, 0, 0.1);
            border-radius: 12px;
            overflow: hidden;
            position: relative;
            display: grid;
            grid-template-rows: auto 1fr auto;
        \x7d

        /* Header */
        .header \x7b
            padding: 20px 50px 10px;
            position: relative;
            z-index: 1;
        \x7d

        .title \x7b
            font-size: 32px;
            font-weight: 700;
            color: #333333;
            letter-spacing: -0.5px;
            display: block;
        \x7d

        .subtitle \x7b
            font-size: 22px;
            font-weight: 500;
            color: #007BC0;
            margin-top: 5px;
        \x7d

        /* Common content styles */
        .content \x7b
            position: relative;
            z-index: 1;
            padding: 30px 50px;
        \x7d

        /* Layout specific styles */
        /* 1. BALANCED LAYOUT - Standard split */
        "

/-- The four layout-conditional stylesheet fragments
(`modules/slide_generator.py` lines 281-290), in template order, separated by
the surrounding comment lines. -/
def cssCondBalanced : List Char :=
  lit ".content \x7b display: grid; grid-template-columns: 3fr 2fr; gap: 30px; \x7d"

/-- Conditional rule for the text-focus layout (line 284). -/
def cssCondTextFocus : List Char :=
  lit ".content \x7b display: grid; grid-template-columns: 4fr 1fr; gap: 30px; \x7d"

/-- Conditional rule for the image-focus layout (line 287). -/
def cssCondImageFocus : List Char :=
  lit ".content \x7b display: flex; flex-direction: column; \x7d .image-container \x7b margin-bottom: 30px; width: 100%; max-height: 450px; \x7d .bullet-points \x7b display: flex; flex-direction: row; justify-content: space-between; \x7d"

/-- Conditional rule for the comparison layout (line 290). -/
def cssCondComparison : List Char :=
  lit ".content \x7b display: block; \x7d .comparison-container \x7b display: flex; gap: 50px; \x7d .comparison-column \x7b flex: 1; \x7d"

/-- Template text between the balanced and text-focus conditionals. -/
def cssGapTextFocus : List Char :=
  lit "

        /* 2. TEXT FOCUS LAYOUT - More space for text */
        "

/-- Template text between the text-focus and image-focus conditionals. -/
def cssGapImageFocus : List Char :=
  lit "

        /* 3. IMAGE FOCUS LAYOUT - Image prominent */
        "

/-- Template text between the image-focus and comparison conditionals. -/
def cssGapComparison : List Char :=
  lit "

        /* 4. COMPARISON LAYOUT - Side by side */
        "

/-- Remainder of the stylesheet after the layout conditionals, through
`</style>`, `<body>` and the header markup up to the slide-title
interpolation (`modules/slide_generator.py` lines 291-427). -/
def cssB : List Char :=
  lit "

        /* Text column */
        .text-column \x7b
            display: flex;
            flex-direction: column;
        \x7d

        /* Bullet points */
        .bullet-points \x7b
            display: flex;
            flex-direction: column;
            gap: 18px;
            margin-top: 10px;
        \x7d

        .bullet-point \x7b
            display: flex;
            align-items: flex-start;
            background-color: #F5F5F5;
            border-radius: 10px;
            padding: 16px 20px;
            box-shadow: 0 4px 15px rgba(0, 0, 0, 0.05);
            transform: translateY(20px);
            opacity: 0;
            animation: slide-in 0.5s forwards ease-out;
            transition: all 0.3s ease;
        \x7d

        /* Add styles for different bullet point types */
        .bullet-point.compact \x7b
            padding: 10px 15px;
        \x7d

        .bullet-point.highlight \x7b
            background: linear-gradient(135deg, #007BC010, #FFFFFF);
            border-left: 4px solid #007BC0;
        \x7d

        .bullet-point.comparison-item \x7b
            text-align: center;
            justify-content: center;
        \x7d

        .bullet-icon \x7b
            margin-right: 15px;
            flex-shrink: 0;
            margin-top: 2px;
        \x7d

        .bullet-number \x7b
            width: 26px;
            height: 26px;
            border-radius: 50%;
            background-color: #007BC0;
            color: white;
            display: flex;
            align-items: center;
            justify-content: center;
            font-weight: bold;
            margin-right: 15px;
            flex-shrink: 0;
        \x7d

        .bullet-text \x7b
            font-size: 18px;
            font-weight: 500;
            color: #333333;
            line-height: 1.4;
        \x7d

        /* Image column */
        .image-column \x7b
            display: flex;
            align-items: center;
            justify-content: center;
        \x7d

        .image-container \x7b
            width: 100%;
            max-width: 450px;
            height: auto;
            max-height: 400px;
            display: flex;
            align-items: center;
            justify-content: center;
            position: relative;
            overflow: hidden;
            border-radius: 12px;
            box-shadow: 0 10px 30px rgba(0, 0, 0, 0.1);
            margin: 0 auto;
        \x7d

        .image-container img \x7b
            max-width: 100%;
            max-height: 100%;
            object-fit: contain;
            border-radius: 8px;
            transition: transform 0.3s ease;
        \x7d

        @keyframes slide-in \x7b
            to \x7b
                transform: translateY(0);
                opacity: 1;
            \x7d
        \x7d

        /* Footer */
        .footer \x7b
            padding: 15px 50px;
            text-align: right;
            color: #7D7D7D;
            font-size: 14px;
            font-weight: 300;
            border-top: 1px solid rgba(0, 0, 0, 0.05);
            position: relative;
            z-index: 1;
            display: flex;
            justify-content: space-between;
            align-items: center;
        \x7d

        .footer-text \x7b
            flex-grow: 1;
        \x7d

        .company-logo \x7b
            height: 40px;
            width: auto;
            margin-left: 20px;
        \x7d
    </style>
</head>
<body>
    <div class=\"slide\">
        <div class=\"header\">
            <h1 class=\"title\">"

/-- The layout-dependent content block of the slide body
(`modules/slide_generator.py` lines 432-455). -/
def contentFragment (layout_type : LayoutType) (slide_title : List Char)
    (bullet_points_html : List Char) (image_info : ImageInfo) : List Char :=
  match layout_type with
  | .image_focus =>
    lit "
            <!-- IMAGE FOCUS LAYOUT -->
            <div class=\"image-container centered-image\">
                <img src=\"data:image/jpeg;base64," ++ image_info.base64_data
      ++ lit "\" alt=\"" ++ slide_title
      ++ lit "\">
            </div>
            <div class=\"bullet-points\">
                " ++ bullet_points_html
      ++ lit "
            </div>
            "
  | .comparison =>
    lit "
            <!-- COMPARISON LAYOUT -->
            " ++ bullet_points_html
      ++ lit "
            "
  | _ =>
    lit "
            <!-- BALANCED OR TEXT FOCUSED LAYOUT -->
            <div class=\"text-column\">
                <div class=\"bullet-points\">
                    " ++ bullet_points_html
      ++ lit "
                </div>
            </div>
            <div class=\"image-column\">
                <div class=\"image-container\">
                    <img src=\"data:image/jpeg;base64," ++ image_info.base64_data
      ++ lit "\" alt=\"" ++ slide_title
      ++ lit "\">
                </div>
            </div>
            "

/-- `generate_html_content` (`modules/slide_generator.py` lines 192-466): the
complete HTML document of one slide.  The color dictionary of
`create_html_slide` is constant, so its values appear inlined; `logo` is the
result of `load_company_logo`. -/
def generate_html_content (slide_title document_title : List Char)
    (layout_type : LayoutType) (bullet_points_html : List Char)
    (image_info : ImageInfo) (logo : List Char) : List Char :=
  htmlDocStart ++ slide_title ++ lit " - " ++ document_title
    ++ cssA
    ++ (if layout_type = .balanced then cssCondBalanced else [])
    ++ cssGapTextFocus
    ++ (if layout_type = .text_focus then cssCondTextFocus else [])
    ++ cssGapImageFocus
    ++ (if layout_type = .image_focus then cssCondImageFocus else [])
    ++ cssGapComparison
    ++ (if layout_type = .comparison then cssCondComparison else [])
    ++ cssB
    ++ slide_title
    ++ lit "</h1>
            <p class=\"subtitle\">" ++ document_title
    ++ lit "</p>
        </div>

        <div class=\"content\">
            "
    ++ contentFragment layout_type slide_title bullet_points_html image_info
    ++ lit "
        </div>

        <div class=\"footer\">
            <span class=\"footer-text\">" ++ document_title ++ lit " | " ++ slide_title
    ++ lit "</span>
            <img src=\"data:image/png;base64," ++ logo
    ++ lit "\" alt=\"Company Logo\" class=\"company-logo\">
        </div>
    </div>
</body>
</html>"

/-- Python `", ".join(bullet_points)`. -/
def joinCS : List (List Char) → List Char
  | [] => []
  | [b] => b
  | b :: rest => b ++ ',' :: ' ' :: joinCS rest

/-- `create_html_slide` (`modules/slide_generator.py` lines 43-119).  The
model response for bullet extraction is supplied through `parsed` and
`response_text` (see `extract_key_bullet_points`) and the logo filesystem
lookup through `fs_logo`. -/
def create_html_slide (sec : KeySection) (image_info : ImageInfo)
    (document_title : List Char) (parsed : Option (List (List Char)))
    (response_text : List Char) (fs_logo : Option (List Char)) : HTMLSlide :=
  let bullet_points := extract_key_bullet_points sec parsed response_text
  let slide_title := trimWS sec.title
  let layout_type := classify bullet_points.length slide_title sec.content.length
  let bullet_points_html := generate_bullet_points_html bullet_points layout_type
  let html_content :=
    generate_html_content slide_title document_title layout_type
      bullet_points_html image_info (load_company_logo fs_logo)
  { html_content := html_content
    title := slide_title
    section_title := sec.title
    section_content :=
      if bullet_points.isEmpty then sec.content.take 100 ++ lit "..."
      else joinCS bullet_points }

/-- Python `str.split(", ")`: non-overlapping left-to-right split on the
two-character separator. -/
def splitCS : List Char → List (List Char)
  | [] => [[]]
  | [c] => [[c]]
  | c :: d :: rest =>
    if c = ',' ∧ d = ' ' then [] :: splitCS rest
    else
      match splitCS (d :: rest) with
      | [] => [[]]
      | s :: ss => (c :: s) :: ss

/-- The literal pattern of the exporters' bullet-markup regex
`r'<div class="bullet-text">([^<]+)</div>'`. -/
def bulletMarker : List Char := lit "<div class=\"bullet-text\">"

/-- Drop a literal from the front of a list, or fail. -/
def dropLit : List Char → List Char → Option (List Char)
  | [], l => some l
  | _ :: _, [] => none
  | x :: xs, y :: ys => if x = y then dropLit xs ys else none

/-- Match `<div class="bullet-text">([^<]+)</div>` at the head of `l`:
the literal marker, then a maximal non-empty run of non-`<` characters
(the capture), then the literal `</div>`.  Returns the capture and the
remainder after the match. -/
def bulletAt (l : List Char) : Option (List Char × List Char) :=
  match dropLit bulletMarker l with
  | none => none
  | some r1 =>
    let body := r1.takeWhile (fun c => c != '<')
    if body.isEmpty then none
    else
      match dropLit (lit "</div>") (r1.dropWhile (fun c => c != '<')) with
      | none => none
      | some r2 => some (body, r2)

/-- Fuel-driven scan of `re.findall(r'<div class="bullet-text">([^<]+)</div>',
html)`: captures in order, non-overlapping, resuming after each match. -/
def findBulletsGo : Nat → List Char → List (List Char)
  | 0, _ => []
  | _ + 1, [] => []
  | fuel + 1, c :: rest =>
    match bulletAt (c :: rest) with
    | some (body, rem) => body :: findBulletsGo fuel rem
    | none => findBulletsGo fuel rest

/-- `re.findall(r'<div class="bullet-text">([^<]+)</div>', html)`
(`modules/pptx_converter.py` lines 153-154 and
`modules/template_pptx_converter.py` lines 147-148). -/
def findBullets (html : List Char) : List (List Char) :=
  findBulletsGo html.length html

/-- The exporters' bullet filter `[p for p in bullet_points if p and
len(p.strip()) > 0]`. -/
def keepBullet (p : List Char) : Bool :=
  !p.isEmpty && !(trimWS p).isEmpty

/-- Bullet re-derivation of the blank-canvas exporter
(`modules/pptx_converter.py` lines 147-159): split the condensed content on
`", "` when it contains a comma, otherwise re-scan the slide markup; then
drop blank entries. -/
def pptx_rederive_bullet_points (slide_obj : HTMLSlide) : List (List Char) :=
  let bullet_points :=
    if !slide_obj.section_content.isEmpty && slide_obj.section_content.contains ',' then
      splitCS slide_obj.section_content
    else
      findBullets slide_obj.html_content
  bullet_points.filter keepBullet

/-- Bullet re-derivation of the template exporter
(`modules/template_pptx_converter.py` lines 141-153); the code is identical
to the blank-canvas exporter's. -/
def template_rederive_bullet_points (slide_obj : HTMLSlide) : List (List Char) :=
  let bullet_points :=
    if !slide_obj.section_content.isEmpty && slide_obj.section_content.contains ',' then
      splitCS slide_obj.section_content
    else
      findBullets slide_obj.html_content
  bullet_points.filter keepBullet

/-- How the template exporter obtains its base presentation. -/
inductive TemplateSource where
  | fromStream
  | fromPath (p : List Char)
deriving DecidableEq, Repr

/-- The `template_file` aliasing of `create_powerpoint_from_template`
(`modules/template_pptx_converter.py` lines 31-32): `template_file` is used
when it is truthy and `template_path` is not.  Python `None` and the empty
string are both falsy, and are modelled uniformly by the empty list. -/
def effectiveTemplatePath (template_path template_file : List Char) : List Char :=
  if !template_file.isEmpty ∧ template_path.isEmpty then template_file
  else template_path

/-- Template selection of `create_powerpoint_from_template`
(`modules/template_pptx_converter.py` lines 34-42): a supplied stream wins,
else an existing file path, else `FileNotFoundError`.  The filesystem is the
predicate `fs` (`os.path.exists`). -/
def template_presentation_source (template_path template_file : List Char)
    (template_stream : Bool) (fs : List Char → Bool) :
    Except (List Char) TemplateSource :=
  let template_path := effectiveTemplatePath template_path template_file
  if template_stream then .ok .fromStream
  else if !template_path.isEmpty && fs template_path then .ok (.fromPath template_path)
  else .error (lit "Template file not found: " ++ template_path)

/-- Whether the template exporter raises `FileNotFoundError`. -/
def raisesNotFound (r : Except (List Char) TemplateSource) : Bool :=
  match r with
  | .error _ => true
  | .ok _ => false

/-- The 50,000-character cap of PDF text extraction
(`modules/helpers.py` line 34). -/
def pdf_truncation_limit : Nat := 50000

/-- The truncation marker appended by `extract_text_from_pdf`
(`modules/helpers.py` line 35). -/
def pdfTruncationMarker : List Char := lit "... [Content truncated due to length]"

/-- The page-accumulation loop of `extract_text_from_pdf`
(`modules/helpers.py` lines 30-38): append each page followed by a blank
line; as soon as the accumulated text exceeds the cap, append the marker and
stop. -/
def extract_text_loop (text : List Char) : List (List Char) → List Char
  | [] => text
  | page :: rest =>
    let text := text ++ page ++ lit "\n\n"
    if pdf_truncation_limit < text.length then text ++ pdfTruncationMarker
    else extract_text_loop text rest

/-- `extract_text_from_pdf` (`modules/helpers.py` lines 16-41) on the page
texts produced by PyPDF2 (modelled as the input list; the failure branch
returning `None` is outside the scope of the truncation claim). -/
def extract_text_from_pdf (pages : List (List Char)) : List Char :=
  extract_text_loop [] pages

/-- Number of pages the loop consumes, starting from an accumulated length
`acc`: a page is consumed as long as the previous total stayed within the
cap. -/
def consumedFrom (acc : Nat) : List (List Char) → Nat
  | [] => 0
  | page :: rest =>
    if pdf_truncation_limit < acc + (page.length + 2) then 1
    else 1 + consumedFrom (acc + (page.length + 2)) rest

/-- Pages actually read by `extract_text_from_pdf`. -/
def consumedPages (pages : List (List Char)) : Nat := consumedFrom 0 pages

/-- The text contributed by the first `k` pages (each followed by the blank
line separator). -/
def renderedPages (pages : List (List Char)) (k : Nat) : List Char :=
  ((pages.take k).map (fun p => p ++ lit "\n\n")).flatten

/-- `get_color_from_prompt` (`modules/helpers.py` lines 84-89): a character
ordinal sum hashed into an RGB triple with fixed multipliers mod 256. -/
def get_color_from_prompt (prompt_text : List Char) : Nat × Nat × Nat :=
  let hash_val := (prompt_text.map Char.toNat).sum
  ((hash_val * 123) % 256, (hash_val * 456) % 256, (hash_val * 789) % 256)

/-- The gradient endpoints of the placeholder image
(`modules/helpers.py` lines 92-93): the start color hashes the first ten
characters of the prompt, the end color the last ten (the whole prompt when
it has at most ten characters). -/
def placeholder_gradient_colors (prompt : List Char) :
    (Nat × Nat × Nat) × (Nat × Nat × Nat) :=
  (get_color_from_prompt (prompt.take 10),
   get_color_from_prompt
     (if 10 < prompt.length then prompt.drop (prompt.length - 10) else prompt))

/-- The resize bound of `load_image_info_from_pil`
(`modules/helpers.py` line 195). -/
def max_dimension : Nat := 1200

/-- The resize step of `load_image_info_from_pil`
(`modules/helpers.py` lines 194-205).  The Python code computes the scaled
side as `int(side * (1200/larger))` in floating point; it is modelled as the
exact rational floor `side * 1200 / larger`. -/
def resizeDims (width height : Nat) : Nat × Nat :=
  if max_dimension < width ∨ max_dimension < height then
    if height < width then (max_dimension, height * max_dimension / width)
    else (width * max_dimension / height, max_dimension)
  else (width, height)

/-- `load_image_info_from_pil` (`modules/helpers.py` lines 171-221) on an
image of the given pixel size: the RGBA flattening does not change the size,
so the recorded dimensions are the resized ones.  The JPEG re-encoding is
abstracted by the `base64_data` parameter. -/
def load_image_info_from_pil (image_width image_height : Nat)
    (file_name file_path base64_data : List Char) : ImageInfo :=
  let dims := resizeDims image_width image_height
  { file_path := file_path
    file_name := file_name
    base64_data := base64_data
    width := dims.1
    height := dims.2 }

/-- The 25,000-character cap applied by `extract_key_sections`
(`modules/agents.py` line 83). -/
def extraction_input_limit : Nat := 25000

/-- The truncation notice of `extract_key_sections`
(`modules/agents.py` line 84). -/
def extractionTruncationNotice : List Char := lit "\n\n[Content truncated due to length]"

/-- The document text actually sent to the section-extraction model
(`modules/agents.py` lines 83-86). -/
def extract_key_sections_input (pdf_text : List Char) : List Char :=
  let pdf_text :=
    if extraction_input_limit < pdf_text.length then
      pdf_text.take extraction_input_limit ++ extractionTruncationNotice
    else pdf_text
  lit "Document Content:\n\n" ++ pdf_text

/-- Insert an indexed result into a list sorted by index (ascending). -/
def insertByIdx {α : Type} (p : Nat × α) : List (Nat × α) → List (Nat × α)
  | [] => [p]
  | q :: rest => if p.1 ≤ q.1 then p :: q :: rest else q :: insertByIdx p rest

/-- `sorted(valid_results, key=lambda x: x["index"])`
(`modules/processor.py` lines 128 and 178): sort gathered results by their
originating section index. -/
def sortByIdx {α : Type} : List (Nat × α) → List (Nat × α)
  | [] => []
  | p :: rest => insertByIdx p (sortByIdx rest)

instance idxLtAntisymm {α : Type} : IsAntisymm (Nat × α) (fun a b => a.1 < b.1) :=
  ⟨fun _ _ h1 h2 => absurd (Nat.lt_trans h1 h2) (Nat.lt_irrefl _)⟩

/-- The image stage of `process_pdf_to_presentation`
(`modules/processor.py` lines 85-134): one task per section prompt, each
producing `some` image info exactly when generation, saving and info
creation all succeed (`gen i = none` models any failure of task `i`), with
the surviving results carrying their task index.  This is the in-task-order
gather; the pipeline theorem quantifies over arbitrary permutations of it. -/
def image_stage (n : Nat) (gen : Nat → Option ImageInfo) : List (Nat × ImageInfo) :=
  (List.range n).filterMap (fun i => (gen i).map (fun info => (i, info)))

/-- The slide stage of `process_pdf_to_presentation`
(`modules/processor.py` lines 155-183): one slide task per section, up to
`max_slides = min(len(key_sections), len(image_infos))`, pairing section `i`
with the `i`-th surviving image; `resp i` is section `i`'s bullet-extraction
model response. -/
def slide_stage (sections : List KeySection) (image_infos : List ImageInfo)
    (document_title : List Char)
    (resp : Nat → Option (List (List Char)) × List Char)
    (fs_logo : Option (List Char)) : List (Nat × HTMLSlide) :=
  (List.range (min sections.length image_infos.length)).map
    (fun i =>
      (i, create_html_slide (sections.getD i default) (image_infos.getD i default)
        document_title (resp i).1 (resp i).2 fs_logo))

/-- `containsSub` decides list infixhood. -/
theorem containsSub_correct (needle hay : List Char) :
    containsSub needle hay = true ↔ needle <:+: hay := by
  induction hay with
  | nil =>
    constructor
    · intro h
      have : needle = [] := by
        simpa [containsSub, List.isEmpty_iff] using h
      simp [this]
    · intro h
      have : needle = [] := List.eq_nil_of_infix_nil h
      simp [containsSub, this, List.isEmpty_iff]
  | cons c rest ih =>
    simp only [containsSub, Bool.or_eq_true, List.infix_cons_iff, ih,
      List.isPrefixOf_iff_prefix]

/-- Dropping a literal from the front shortens the list by the literal's
length. -/
theorem dropLit_length : ∀ (pat l r : List Char), dropLit pat l = some r →
    r.length + pat.length = l.length := by
  intro pat
  induction pat with
  | nil => intro l r h; simp [dropLit] at h; simp [h]
  | cons x xs ih =>
    intro l r h
    cases l with
    | nil => simp [dropLit] at h
    | cons y ys =>
      simp only [dropLit] at h
      split at h
      · have := ih ys r h
        simp only [List.length_cons]
        omega
      · exact absurd h (by simp)

/-- A successful `bulletAt` consumes at least the marker, the body and the
closing tag, so the remainder is strictly shorter. -/
theorem bulletAt_rem_lt {l body rem} (h : bulletAt l = some (body, rem)) :
    rem.length < l.length := by
  unfold bulletAt at h
  cases h1 : dropLit bulletMarker l with
  | none => simp [h1] at h
  | some r1 =>
    have hr1 := dropLit_length _ _ _ h1
    simp only [h1] at h
    by_cases hb : (r1.takeWhile (fun c => c != '<')).isEmpty
    · simp [hb] at h
    · simp only [hb, Bool.false_eq_true, if_false] at h
      cases h2 : dropLit (lit "</div>") (r1.dropWhile (fun c => c != '<')) with
      | none => simp [h2] at h
      | some r2 =>
        have hr2 := dropLit_length _ _ _ h2
        simp only [h2, Option.some.injEq, Prod.mk.injEq] at h
        have hdrop : (r1.dropWhile (fun c => c != '<')).length ≤ r1.length :=
          (List.dropWhile_sublist _).length_le
        have hm : 0 < bulletMarker.length := by decide
        have hd : 0 < (lit "</div>").length := by decide
        have : rem = r2 := h.2.symm ▸ rfl
        subst this
        omega

/-! ### Sorting-by-index infrastructure for the pipeline claim -/

/-- Inserting into a list yields a permutation of consing. -/
theorem insertByIdx_perm {α : Type} (p : Nat × α) (l : List (Nat × α)) :
    (insertByIdx p l).Perm (p :: l) := by
  induction l with
  | nil => exact List.Perm.refl _
  | cons q rest ih =>
    simp only [insertByIdx]
    split
    · exact List.Perm.refl _
    · exact (ih.cons q).trans (List.Perm.swap p q rest)

/-- `sortByIdx` permutes its input. -/
theorem sortByIdx_perm {α : Type} (l : List (Nat × α)) : (sortByIdx l).Perm l := by
  induction l with
  | nil => exact List.Perm.refl _
  | cons p rest ih =>
    exact (insertByIdx_perm p (sortByIdx rest)).trans (ih.cons p)

/-- Insertion preserves sortedness by index. -/
theorem insertByIdx_sorted {α : Type} (p : Nat × α) {l : List (Nat × α)}
    (h : List.Sorted (fun a b : Nat × α => a.1 ≤ b.1) l) :
    List.Sorted (fun a b : Nat × α => a.1 ≤ b.1) (insertByIdx p l) := by
  induction l with
  | nil => simp [insertByIdx]
  | cons q rest ih =>
    rw [List.sorted_cons] at h
    obtain ⟨hq, hrest⟩ := h
    simp only [insertByIdx]
    split
    · rename_i hpq
      rw [List.sorted_cons]
      refine ⟨?_, by rw [List.sorted_cons]; exact ⟨hq, hrest⟩⟩
      intro b hb
      rcases List.mem_cons.mp hb with rfl | hb
      · exact hpq
      · exact le_trans hpq (hq b hb)
    · rename_i hpq
      rw [List.sorted_cons]
      refine ⟨?_, ih hrest⟩
      intro b hb
      have hb' := (insertByIdx_perm p rest).mem_iff.mp hb
      rcases List.mem_cons.mp hb' with rfl | hb'
      · exact le_of_lt (Nat.lt_of_not_le hpq)
      · exact hq b hb'

/-- The output of `sortByIdx` is sorted by index. -/
theorem sortByIdx_sorted {α : Type} (l : List (Nat × α)) :
    List.Sorted (fun a b : Nat × α => a.1 ≤ b.1) (sortByIdx l) := by
  induction l with
  | nil => simp [sortByIdx]
  | cons p rest ih => exact insertByIdx_sorted p ih

/-- Sorting any permutation of a strictly index-sorted list recovers that
list: the sort step after `asyncio.gather` is deterministic regardless of
completion order. -/
theorem sortByIdx_eq_of_perm {α : Type} {g canon : List (Nat × α)}
    (hperm : g.Perm canon)
    (hs : List.Sorted (fun a b : Nat × α => a.1 < b.1) canon) :
    sortByIdx g = canon := by
  have hperm2 : (sortByIdx g).Perm canon := (sortByIdx_perm g).trans hperm
  have hnodup_c : (canon.map Prod.fst).Nodup := by
    rw [List.Nodup, List.pairwise_map]
    exact hs.imp (fun h => Nat.ne_of_lt h)
  have hnodup_g : ((sortByIdx g).map Prod.fst).Nodup :=
    ((hperm2.map Prod.fst).nodup_iff).mpr hnodup_c
  have hsorted_lt :
      List.Sorted (fun a b : Nat × α => a.1 < b.1) (sortByIdx g) := by
    have hpair : (sortByIdx g).Pairwise (fun a b => a.1 ≠ b.1) := by
      rw [List.Nodup, List.pairwise_map] at hnodup_g
      exact hnodup_g
    exact ((sortByIdx_sorted g).and hpair).imp
      (fun h => lt_of_le_of_ne h.1 h.2)
  exact List.eq_of_perm_of_sorted hperm2 hsorted_lt hs

/-- The in-order image gather is strictly sorted by section index. -/
theorem image_stage_sorted (n : Nat) (gen : Nat → Option ImageInfo) :
    List.Sorted (fun a b : Nat × ImageInfo => a.1 < b.1) (image_stage n gen) := by
  unfold image_stage
  rw [List.Sorted, List.pairwise_filterMap]
  refine (List.pairwise_lt_range n).imp ?_
  intro i j hij b hb b' hb'
  obtain ⟨x, _, rfl⟩ := Option.map_eq_some'.mp hb
  obtain ⟨y, _, rfl⟩ := Option.map_eq_some'.mp hb'
  exact hij

/-- The in-order slide gather is strictly sorted by section index. -/
theorem slide_stage_sorted (sections : List KeySection)
    (image_infos : List ImageInfo) (document_title : List Char)
    (resp : Nat → Option (List (List Char)) × List Char)
    (fs_logo : Option (List Char)) :
    List.Sorted (fun a b : Nat × HTMLSlide => a.1 < b.1)
      (slide_stage sections image_infos document_title resp fs_logo) := by
  unfold slide_stage
  rw [List.Sorted, List.pairwise_map]
  exact (List.pairwise_lt_range _).imp (fun h => h)

/-- Surviving image results are counted by the success predicate. -/
theorem image_stage_length (n : Nat) (gen : Nat → Option ImageInfo) :
    (image_stage n gen).length
      = ((List.range n).filter (fun i => (gen i).isSome)).length := by
  unfold image_stage
  induction List.range n with
  | nil => rfl
  | cons i rest ih =>
    rw [List.filterMap_cons, List.filter_cons]
    cases h : gen i with
    | none => simpa [h] using ih
    | some info => simpa [h] using ih

/-- C1: for every pipeline run — however the concurrently gathered image and
slide results are permuted before the explicit re-sort by section index —
the deck holds `min(#sections, #successfully generated-and-saved images)`
slides, slide `i` being built from section `i` and the `i`-th surviving
image, so slide order follows section order and an image shortfall truncates
the deck rather than failing the run. -/
theorem pipeline_slide_count_and_order
    (sections : List KeySection) (gen : Nat → Option ImageInfo)
    (document_title : List Char)
    (resp : Nat → Option (List (List Char)) × List Char)
    (fs_logo : Option (List Char))
    (g₁ : List (Nat × ImageInfo)) (g₂ : List (Nat × HTMLSlide))
    (h₁ : g₁.Perm (image_stage sections.length gen))
    (h₂ : g₂.Perm (slide_stage sections ((sortByIdx g₁).map Prod.snd)
        document_title resp fs_logo)) :
    ((sortByIdx g₂).map Prod.snd).length
        = min sections.length ((sortByIdx g₁).map Prod.snd).length ∧
    ((sortByIdx g₁).map Prod.snd).length
        = ((List.range sections.length).filter (fun i => (gen i).isSome)).length ∧
    ∀ i (h : i < ((sortByIdx g₂).map Prod.snd).length),
      ((sortByIdx g₂).map Prod.snd).get ⟨i, h⟩
        = create_html_slide (sections.getD i default)
            (((sortByIdx g₁).map Prod.snd).getD i default) document_title
            (resp i).1 (resp i).2 fs_logo := by
  have e1 : sortByIdx g₁ = image_stage sections.length gen :=
    sortByIdx_eq_of_perm h₁ (image_stage_sorted _ _)
  have e2 : sortByIdx g₂
      = slide_stage sections ((sortByIdx g₁).map Prod.snd) document_title resp fs_logo :=
    sortByIdx_eq_of_perm h₂ (slide_stage_sorted _ _ _ _ _)
  refine ⟨?_, ?_, ?_⟩
  · rw [e2]
    simp [slide_stage]
  · rw [e1]
    rw [List.length_map]
    exact image_stage_length _ _
  · intro i h
    simp only [e2, slide_stage, List.map_map, List.get_eq_getElem,
      List.getElem_map, List.getElem_range, Function.comp]

/-- Witness for C1: two sections, the second image task fails; the deck has
`min 2 1 = 1` slide. -/
theorem pipeline_slide_count_witness :
    ((sortByIdx (slide_stage ([default, default] : List KeySection)
        ((sortByIdx (image_stage 2
            (fun i => if i = 0 then some default else none))).map Prod.snd)
        [] (fun _ => (none, [])) none)).map Prod.snd).length
      = min ([default, default] : List KeySection).length
          ((sortByIdx (image_stage 2
              (fun i => if i = 0 then some default else none))).map Prod.snd).length :=
  (pipeline_slide_count_and_order [default, default]
    (fun i => if i = 0 then some default else none) [] (fun _ => (none, [])) none
    (image_stage 2 (fun i => if i = 0 then some default else none))
    (slide_stage [default, default]
      ((sortByIdx (image_stage 2
          (fun i => if i = 0 then some default else none))).map Prod.snd)
      [] (fun _ => (none, [])) none)
    (List.Perm.refl _) (List.Perm.refl _)).1

/-- C2: the layout classifier is a pure total function that matches the
specification's five priority-ordered rules (first match wins), and in
particular: at most two bullets with a "diagram" title give `image_focus`;
five or more bullets always give `text_focus`; "A vs B" with three bullets
and length 100 gives `comparison`; three bullets with a neutral title and
length 600 give `text_focus`; three bullets, title "Overview", length 100
give `balanced`. -/
theorem classify_rules :
    (∀ (bc : Nat) (t : List Char) (cl : Nat), classify bc t cl = classifySpec bc t cl) ∧
    (∀ (bc : Nat) (t : List Char) (cl : Nat),
      bc ≤ 2 → containsSub (lit "diagram") (lowerStr t) = true →
      classify bc t cl = .image_focus) ∧
    (∀ (bc : Nat) (t : List Char) (cl : Nat), 5 ≤ bc → classify bc t cl = .text_focus) ∧
    classify 3 (lit "A vs B") 100 = .comparison ∧
    classify 3 (lit "Results") 600 = .text_focus ∧
    classify 3 (lit "Overview") 100 = .balanced := by
  refine ⟨?_, ?_, ?_, by decide, by decide, by decide⟩
  · intro bc t cl
    simp only [classify, classifySpec]
    refine if_congr ?_ rfl (if_congr Iff.rfl rfl (if_congr ?_ rfl
      (if_congr Iff.rfl rfl rfl)))
    · simp [List.any_eq_true, containsSub_correct]
    · simp [containsSub_correct, or_assoc]
  · intro bc t cl hbc hdiag
    have hany : (image_keywords.any fun kw => containsSub kw (lowerStr t)) = true := by
      rw [List.any_eq_true]
      exact ⟨lit "diagram", by decide, hdiag⟩
    simp [classify, hbc, hany]
  · intro bc t cl hbc
    have h2 : ¬ bc ≤ 2 := by omega
    simp [classify, h2, hbc]

/-- Witness for C2: a two-bullet slide titled "System Diagram" with long
content is classified `image_focus`. -/
theorem classify_rules_witness :
    classify 2 (lit "System Diagram") 800 = .image_focus :=
  classify_rules.2.1 2 (lit "System Diagram") 800 (by decide) (by decide)

/-- C3 (amended): bullet extraction always returns at most five items; on a
parse failure the fallback chain guarantees a non-empty result; on the
primary path the parsed list is returned truncated to five — so an empty
parsed list is returned as-is, empty. -/
theorem extract_key_bullet_points_bounds
    (sec : KeySection) (parsed : Option (List (List Char))) (text : List Char) :
    (extract_key_bullet_points sec parsed text).length ≤ 5 ∧
    (parsed = none → extract_key_bullet_points sec parsed text ≠ []) ∧
    (∀ l, parsed = some l → extract_key_bullet_points sec parsed text = l.take 5) := by
  have key : ∀ (X : List (List Char)),
      ((if X.isEmpty then genericBullets sec else X).take 5) ≠ [] := by
    intro X
    by_cases hX : X.isEmpty
    · simp [hX, genericBullets]
    · cases X with
      | nil => simp at hX
      | cons a rest => simp [hX]
  refine ⟨?_, ?_, ?_⟩
  · cases parsed with
    | some l =>
      simp only [extract_key_bullet_points]
      exact List.length_take_le 5 l
    | none =>
      simp only [extract_key_bullet_points]
      exact List.length_take_le 5 _
  · intro hp; subst hp
    simp only [extract_key_bullet_points]
    exact key _
  · intro l hp; subst hp
    rfl

/-- Witness for C3: on a parse-failure response whose only structure is two
quoted phrases, the extractor returns them (a non-empty list of at most
five). -/
theorem extract_key_bullet_points_bounds_witness :
    extract_key_bullet_points default none (lit "Here: \"First point\" and \"Second point\"")
      ≠ [] :=
  (extract_key_bullet_points_bounds default none
    (lit "Here: \"First point\" and \"Second point\"")).2.1 rfl

/-- Counterexample to C3 as stated: the model response `"[]"` parses as an
empty Python list, and the extractor returns it unchanged — the empty list. -/
theorem extract_key_bullet_points_empty_cex :
    extract_key_bullet_points default (some []) (lit "[]") = [] := rfl

/-- C5: on parse failure the extractor equals the first non-empty result of
the fallback chain — quoted substrings, then the bracketed body split on
commas, then the line scan, then one `Explores {theme}` bullet per section
theme, then the three generic title bullets — truncated to five. -/
theorem fallback_chain_order (sec : KeySection) (text : List Char) :
    extract_key_bullet_points sec none text
      = (firstNonEmpty
          [findQuoted text,
           bracketFallback text,
           lineScan text,
           sec.themes.map (fun theme => lit "Explores " ++ theme),
           genericBullets sec]).take 5 := by
  by_cases h1 : (findQuoted text).isEmpty
  · by_cases h2 : (bracketFallback text).isEmpty
    · by_cases h3 : (lineScan text).isEmpty
      · by_cases h4 : sec.themes.isEmpty
        · have h4' : sec.themes = [] := by simpa [List.isEmpty_iff] using h4
          simp [extract_key_bullet_points, firstNonEmpty, h1, h2, h3, h4', genericBullets]
        · have h4' : sec.themes ≠ [] := by simpa [List.isEmpty_iff] using h4
          have hmap : (sec.themes.map (fun theme => lit "Explores " ++ theme)).isEmpty = false := by
            simp [List.isEmpty_iff, h4']
          have hmap5 : ((sec.themes.take 5).map (fun theme => lit "Explores " ++ theme)).isEmpty = false := by
            simp [List.isEmpty_iff, List.take_eq_nil_iff, h4']
          simp only [extract_key_bullet_points, firstNonEmpty, h1, h2, h3, h4, hmap, hmap5,
            if_true, if_false, Bool.true_and, Bool.not_false, Bool.and_self,
            Bool.false_eq_true, Bool.not_true, Bool.and_false, Bool.and_true]
          rw [List.map_take, List.take_take, min_self]
      · simp [extract_key_bullet_points, firstNonEmpty, h1, h2, h3]
    · simp [extract_key_bullet_points, firstNonEmpty, h1, h2]
  · simp [extract_key_bullet_points, firstNonEmpty, h1]

/-- The bracket-regex model agrees with `re.search(r'\[\s*(.+?)\s*\]', ...)`
on the observable edge cases, checked against the Python `re` engine: a
whitespace-only body matches and captures whitespace (so fallback (b) on
`"[ ]"` yields the one-element list `[""]` and the chain stops there), an
empty body does not match, the lazy body can absorb an unusable `]`, and
newlines block the body but not the surrounding whitespace. -/
theorem bracketGroup_regex_examples :
    bracketGroup (lit "[ ]") = some (lit " ") ∧
    bracketGroup (lit "[  ]") = some (lit " ") ∧
    bracketGroup (lit "[]") = none ∧
    bracketGroup (lit "[ ] abc]") = some (lit "] abc") ∧
    bracketGroup (lit "[a, b]") = some (lit "a, b") ∧
    bracketGroup (lit "[ \n b]") = some (lit "b") ∧
    bracketGroup (lit "[a\nb]") = none ∧
    extract_key_bullet_points default none (lit "[ ]") = [[]] := by
  decide

/-! ### Split/join lemmas for the exporter round trip -/

/-- A comma-free string passes `split(", ")` unchanged. -/
theorem splitCS_nosep : ∀ (b : List Char), ',' ∉ b → splitCS b = [b] := by
  intro b
  induction b with
  | nil => intro _; rfl
  | cons c rest ih =>
    intro h
    have hc : c ≠ ',' := fun hc => h (hc ▸ List.mem_cons_self c rest)
    have hrest : ',' ∉ rest := fun hm => h (List.mem_cons_of_mem c hm)
    cases rest with
    | nil => rfl
    | cons d rest' =>
      simp only [splitCS]
      rw [if_neg (by rintro ⟨rfl, -⟩; exact hc rfl)]
      rw [ih hrest]

/-- Splitting after a comma-free head peels off exactly that head. -/
theorem splitCS_append_sep :
    ∀ (b t : List Char), ',' ∉ b → splitCS (b ++ ',' :: ' ' :: t) = b :: splitCS t := by
  intro b
  induction b with
  | nil =>
    intro t _
    simp [splitCS]
  | cons c b' ih =>
    intro t h
    have hc : c ≠ ',' := fun hc => h (hc ▸ List.mem_cons_self c b')
    have hb' : ',' ∉ b' := fun hm => h (List.mem_cons_of_mem c hm)
    cases b' with
    | nil =>
      show splitCS (c :: ',' :: ' ' :: t) = [c] :: splitCS t
      simp only [splitCS]
      rw [if_neg (by rintro ⟨rfl, -⟩; exact hc rfl)]
      simp
    | cons e b'' =>
      show splitCS (c :: e :: (b'' ++ ',' :: ' ' :: t)) = (c :: e :: b'') :: splitCS t
      simp only [splitCS]
      rw [if_neg (by rintro ⟨rfl, -⟩; exact hc rfl)]
      have hih := ih t hb'
      simp only [List.cons_append] at hih
      rw [hih]

/-- Round trip of `", ".join` and `split(", ")` on comma-free bullets. -/
theorem splitCS_joinCS :
    ∀ (bullets : List (List Char)), bullets ≠ [] →
      (∀ b ∈ bullets, ',' ∉ b) → splitCS (joinCS bullets) = bullets := by
  intro bullets
  induction bullets with
  | nil => intro h; exact absurd rfl h
  | cons b rest ih =>
    intro _ hfree
    cases rest with
    | nil =>
      simp only [joinCS]
      exact splitCS_nosep b (hfree b (List.mem_cons_self b []))
    | cons c rest' =>
      have hjoin : joinCS (b :: c :: rest') = b ++ ',' :: ' ' :: joinCS (c :: rest') := rfl
      rw [hjoin, splitCS_append_sep b _ (hfree b (List.mem_cons_self b _)),
        ih (by simp) (fun x hx => hfree x (List.mem_cons_of_mem b hx))]

/-- The separator puts a comma into any two-or-more-bullet join. -/
theorem comma_mem_joinCS_two (b c : List Char) (rest : List (List Char)) :
    ',' ∈ joinCS (b :: c :: rest) := by
  have hjoin : joinCS (b :: c :: rest) = b ++ ',' :: ' ' :: joinCS (c :: rest) := rfl
  rw [hjoin]
  exact List.mem_append_right b (List.mem_cons_self ',' _)

/-- A comma inside any bullet survives into the join. -/
theorem comma_mem_joinCS_of_mem :
    ∀ (bullets : List (List Char)), (∃ b ∈ bullets, ',' ∈ b) → ',' ∈ joinCS bullets := by
  intro bullets h
  obtain ⟨b, hb, hcomma⟩ := h
  cases bullets with
  | nil => exact absurd hb (List.not_mem_nil b)
  | cons x rest =>
    cases rest with
    | nil =>
      have : b = x := by simpa using hb
      subst this
      simpa [joinCS] using hcomma
    | cons y rest' => exact comma_mem_joinCS_two x y rest'

/-- The two exporters re-derive bullets with identical code. -/
theorem template_eq_pptx_rederive (s : HTMLSlide) :
    template_rederive_bullet_points s = pptx_rederive_bullet_points s := rfl

/-- The condensed content of a slide assembled from a non-empty bullet list
is the `", "`-join of those bullets. -/
theorem section_content_of_bullets (sec : KeySection) (info : ImageInfo)
    (doc : List Char) (rtext : List Char) (fs_logo : Option (List Char))
    (bullets : List (List Char)) (hne : bullets ≠ []) (hlen : bullets.length ≤ 5) :
    (create_html_slide sec info doc (some bullets) rtext fs_logo).section_content
      = joinCS bullets := by
  have hbp : extract_key_bullet_points sec (some bullets) rtext = bullets := by
    simp only [extract_key_bullet_points]
    exact List.take_of_length_le hlen
  simp [create_html_slide, hbp, List.isEmpty_eq_false.mpr hne]

/-- C4 (amended): for slides assembled from a non-empty bullet list of at
most five bullets, both exporter strategies re-derive exactly the original
bullet list whenever it has at least two bullets, none containing a comma
and each containing a non-whitespace character; when some bullet contains a
comma, both exporters instead return the blank-filtered `", "`-split
fragments of the condensed content. -/
theorem exporter_bullet_roundtrip :
    (∀ (sec : KeySection) (info : ImageInfo) (doc rtext : List Char)
       (fs_logo : Option (List Char)) (bullets : List (List Char)),
       2 ≤ bullets.length → bullets.length ≤ 5 →
       (∀ b ∈ bullets, ',' ∉ b) → (∀ b ∈ bullets, trimWS b ≠ []) →
       pptx_rederive_bullet_points
           (create_html_slide sec info doc (some bullets) rtext fs_logo) = bullets
       ∧ template_rederive_bullet_points
           (create_html_slide sec info doc (some bullets) rtext fs_logo) = bullets) ∧
    (∀ (sec : KeySection) (info : ImageInfo) (doc rtext : List Char)
       (fs_logo : Option (List Char)) (bullets : List (List Char)),
       bullets ≠ [] → bullets.length ≤ 5 → (∃ b ∈ bullets, ',' ∈ b) →
       pptx_rederive_bullet_points
           (create_html_slide sec info doc (some bullets) rtext fs_logo)
         = (splitCS (joinCS bullets)).filter keepBullet
       ∧ template_rederive_bullet_points
           (create_html_slide sec info doc (some bullets) rtext fs_logo)
         = (splitCS (joinCS bullets)).filter keepBullet) := by
  constructor
  · intro sec info doc rtext fs_logo bullets h2 h5 hfree hblank
    obtain ⟨b, rest, rfl⟩ : ∃ b rest, bullets = b :: rest := by
      cases bullets with
      | nil => simp at h2
      | cons b rest => exact ⟨b, rest, rfl⟩
    obtain ⟨c, rest', rfl⟩ : ∃ c rest', rest = c :: rest' := by
      cases rest with
      | nil => simp at h2
      | cons c rest' => exact ⟨c, rest', rfl⟩
    have hne : b :: c :: rest' ≠ [] := by simp
    have hsc := section_content_of_bullets sec info doc rtext fs_logo _ hne h5
    have hcomma : ',' ∈ joinCS (b :: c :: rest') := comma_mem_joinCS_two b c rest'
    have hcond : (!(joinCS (b :: c :: rest')).isEmpty
        && (joinCS (b :: c :: rest')).contains ',') = true := by
      have h1 : (joinCS (b :: c :: rest')).isEmpty = false :=
        List.isEmpty_eq_false.mpr (List.ne_nil_of_mem hcomma)
      simp [h1, hcomma]
    have hsplit := splitCS_joinCS _ hne hfree
    have hfilter : (b :: c :: rest').filter keepBullet = b :: c :: rest' := by
      rw [List.filter_eq_self]
      intro a ha
      have hb1 : trimWS a ≠ [] := hblank a ha
      have hb2 : a ≠ [] := by
        intro h; rw [h] at hb1; exact hb1 rfl
      simp [keepBullet, List.isEmpty_eq_false.mpr hb1, List.isEmpty_eq_false.mpr hb2]
    constructor
    · simp only [pptx_rederive_bullet_points, hsc, hcond, if_true, hsplit, hfilter]
    · simp only [template_rederive_bullet_points, hsc, hcond, if_true, hsplit, hfilter]
  · intro sec info doc rtext fs_logo bullets hne h5 hcomma
    have hsc := section_content_of_bullets sec info doc rtext fs_logo _ hne h5
    have hmem := comma_mem_joinCS_of_mem bullets hcomma
    have hcond : (!(joinCS bullets).isEmpty && (joinCS bullets).contains ',') = true := by
      have h1 : (joinCS bullets).isEmpty = false :=
        List.isEmpty_eq_false.mpr (List.ne_nil_of_mem hmem)
      simp [h1, hmem]
    constructor
    · simp only [pptx_rederive_bullet_points, hsc, hcond, if_true]
    · simp only [template_rederive_bullet_points, hsc, hcond, if_true]

/-- Witness for C4: a two-bullet comma-free slide round-trips through the
blank-canvas exporter. -/
theorem exporter_bullet_roundtrip_witness :
    pptx_rederive_bullet_points
        (create_html_slide default default (lit "Doc") (some [lit "aa", lit "bb"])
          [] none)
      = [lit "aa", lit "bb"] :=
  (exporter_bullet_roundtrip.1 default default (lit "Doc") [] none
    [lit "aa", lit "bb"] (by decide) (by decide) (by decide) (by decide)).1

/-- Counterexample to C4 as stated: the comma-free bullet list
`["a", " "]` is re-derived as `["a"]` — the blank bullet is dropped, so the
exporter does not return the original list. -/
theorem exporter_bullet_roundtrip_cex :
    pptx_rederive_bullet_points
        (create_html_slide default default (lit "Doc") (some [lit "a", lit " "])
          [] none)
      = [lit "a"]
    ∧ ([lit "a"] : List (List Char)) ≠ [lit "a", lit " "] := by
  constructor
  · rfl
  · decide

/-- C6: the template exporter raises `FileNotFoundError` exactly when no
template stream is supplied and the effective template path is absent or
does not exist; with a stream supplied, the outcome is the stream for every
filesystem (no filesystem check). -/
theorem template_failfast (template_path template_file : List Char)
    (fs fs' : List Char → Bool) :
    (template_presentation_source template_path template_file true fs
        = .ok .fromStream
     ∧ template_presentation_source template_path template_file true fs
        = template_presentation_source template_path template_file true fs') ∧
    (raisesNotFound
        (template_presentation_source template_path template_file false fs) = true
      ↔ (effectiveTemplatePath template_path template_file = []
         ∨ fs (effectiveTemplatePath template_path template_file) = false)) := by
  constructor
  · exact ⟨rfl, rfl⟩
  · by_cases hempty : effectiveTemplatePath template_path template_file = []
    · simp [template_presentation_source, raisesNotFound, hempty]
    · by_cases hfs : fs (effectiveTemplatePath template_path template_file) = true
      · simp [template_presentation_source, raisesNotFound,
          List.isEmpty_eq_false.mpr hempty, hfs, hempty]
      · simp only [Bool.not_eq_true] at hfs
        simp [template_presentation_source, raisesNotFound,
          List.isEmpty_eq_false.mpr hempty, hfs]

/-- Witness for C6: with no stream, no path and no file, the exporter
raises. -/
theorem template_failfast_witness :
    raisesNotFound (template_presentation_source [] [] false (fun _ => false)) = true :=
  ((template_failfast [] [] (fun _ => false) (fun _ => false)).2).mpr
    (Or.inl (by decide))

/-! ### Lemmas for the PDF truncation loop -/

/-- The loop never consumes more pages than exist. -/
theorem consumedFrom_le : ∀ (pages : List (List Char)) (acc : Nat),
    consumedFrom acc pages ≤ pages.length := by
  intro pages
  induction pages with
  | nil => intro acc; simp [consumedFrom]
  | cons p rest ih =>
    intro acc
    simp only [consumedFrom, List.length_cons]
    split
    · omega
    · have := ih (acc + (p.length + 2))
      omega

/-- Splitting off the first `k` pages of the rendering. -/
theorem renderedPages_cons (p : List Char) (pages : List (List Char)) (k : Nat) :
    renderedPages (p :: pages) (k + 1) = (p ++ lit "\n\n") ++ renderedPages pages k := by
  simp [renderedPages]

/-- Characterisation of the accumulation loop, for any accumulator still
within the cap. -/
theorem extract_text_loop_eq : ∀ (pages : List (List Char)) (acc : List Char),
    acc.length ≤ pdf_truncation_limit →
    extract_text_loop acc pages
      = acc ++ renderedPages pages (consumedFrom acc.length pages)
        ++ (if pdf_truncation_limit
              < acc.length + (renderedPages pages (consumedFrom acc.length pages)).length
            then pdfTruncationMarker else []) := by
  intro pages
  induction pages with
  | nil =>
    intro acc hacc
    simp [extract_text_loop, consumedFrom, renderedPages, Nat.not_lt.mpr hacc]
  | cons p rest ih =>
    intro acc hacc
    have hsep : (lit "\n\n").length = 2 := rfl
    have hlen : (acc ++ p ++ lit "\n\n").length = acc.length + (p.length + 2) := by
      simp [hsep]; try omega
    have hunfold : extract_text_loop acc (p :: rest)
        = (if pdf_truncation_limit < (acc ++ p ++ lit "\n\n").length
           then (acc ++ p ++ lit "\n\n") ++ pdfTruncationMarker
           else extract_text_loop (acc ++ p ++ lit "\n\n") rest) := rfl
    by_cases hstop : pdf_truncation_limit < acc.length + (p.length + 2)
    · have hk : consumedFrom acc.length (p :: rest) = 1 := by
        simp [consumedFrom, hstop]
      have hrend : renderedPages (p :: rest) 1 = p ++ lit "\n\n" := by
        simp [renderedPages]
      rw [hunfold, if_pos (by rw [hlen]; exact hstop), hk, hrend]
      have hcond : pdf_truncation_limit < acc.length + (p ++ lit "\n\n").length := by
        simp [hsep]; try omega
      rw [if_pos hcond]
      simp [List.append_assoc]
    · have hk : consumedFrom acc.length (p :: rest)
          = 1 + consumedFrom (acc.length + (p.length + 2)) rest := by
        simp [consumedFrom, hstop]
      have hacc' : (acc ++ p ++ lit "\n\n").length ≤ pdf_truncation_limit := by
        omega
      have hih := ih (acc ++ p ++ lit "\n\n") hacc'
      rw [hlen] at hih
      rw [hunfold, if_neg (by rw [hlen]; exact hstop), hih, hk,
        Nat.add_comm 1 _, renderedPages_cons]
      have hlen2 : acc.length + ((p ++ lit "\n\n")
            ++ renderedPages rest (consumedFrom (acc.length + (p.length + 2)) rest)).length
          = acc.length + (p.length + 2)
            + (renderedPages rest (consumedFrom (acc.length + (p.length + 2)) rest)).length := by
        simp [hsep]; try omega
      rw [hlen2]
      simp [List.append_assoc]

/-- Minimality: every page the loop consumes was preceded by a total within
the cap. -/
theorem consumedFrom_min : ∀ (pages : List (List Char)) (acc : Nat),
    acc ≤ pdf_truncation_limit →
    ∀ j, j < consumedFrom acc pages →
      acc + (renderedPages pages j).length ≤ pdf_truncation_limit := by
  intro pages
  induction pages with
  | nil => intro acc hacc j hj; simp [consumedFrom] at hj
  | cons p rest ih =>
    intro acc hacc j hj
    cases j with
    | zero => simpa [renderedPages] using hacc
    | succ j =>
      simp only [consumedFrom] at hj
      split at hj
      · omega
      · rename_i hstop
        have hj' : j < consumedFrom (acc + (p.length + 2)) rest := by omega
        have hrec := ih (acc + (p.length + 2)) (by omega) j hj'
        rw [renderedPages_cons]
        have hsep : (lit "\n\n").length = 2 := rfl
        simp only [List.length_append, hsep]
        omega

/-- When the loop stops before the last page, the consumed total exceeds the
cap. -/
theorem consumedFrom_stop : ∀ (pages : List (List Char)) (acc : Nat),
    consumedFrom acc pages < pages.length →
    pdf_truncation_limit < acc + (renderedPages pages (consumedFrom acc pages)).length := by
  intro pages
  induction pages with
  | nil => intro acc h; simp [consumedFrom] at h
  | cons p rest ih =>
    intro acc h
    simp only [consumedFrom, List.length_cons] at h ⊢
    have hsep : (lit "\n\n").length = 2 := rfl
    split
    · rename_i hstop
      have h1 : (1 : Nat) = 0 + 1 := rfl
      rw [h1, renderedPages_cons]
      simp only [List.length_append, hsep]
      have : (renderedPages rest 0).length = 0 := by simp [renderedPages]
      omega
    · rename_i hstop
      split at h
      · omega
      · have h' : consumedFrom (acc + (p.length + 2)) rest < rest.length := by omega
        have := ih (acc + (p.length + 2)) h'
        rw [Nat.add_comm 1 _, renderedPages_cons]
        simp only [List.length_append, hsep]
        omega

/-- C7: PDF text extraction consumes a prefix of the pages in order; the
output is exactly those pages joined with blank lines, plus the truncation
marker exactly when the accumulated total exceeds 50,000 characters; every
consumed page's predecessor pages totalled at most 50,000 characters, and
stopping early implies the total went over the cap. -/
theorem extract_text_truncation (pages : List (List Char)) :
    consumedPages pages ≤ pages.length ∧
    extract_text_from_pdf pages
      = renderedPages pages (consumedPages pages)
        ++ (if pdf_truncation_limit < (renderedPages pages (consumedPages pages)).length
            then pdfTruncationMarker else []) ∧
    (∀ j, j < consumedPages pages →
      (renderedPages pages j).length ≤ pdf_truncation_limit) ∧
    (consumedPages pages < pages.length →
      pdf_truncation_limit < (renderedPages pages (consumedPages pages)).length) := by
  refine ⟨consumedFrom_le pages 0, ?_, ?_, ?_⟩
  · have := extract_text_loop_eq pages [] (by simp [pdf_truncation_limit])
    simpa [extract_text_from_pdf, consumedPages] using this
  · intro j hj
    have := consumedFrom_min pages 0 (by simp [pdf_truncation_limit]) j hj
    simpa using this
  · intro h
    have := consumedFrom_stop pages 0 h
    simpa using this

/-- Witness for C7: a one-page document is returned whole, its predecessor
total being zero. -/
theorem extract_text_truncation_witness :
    (renderedPages [lit "ab"] 0).length ≤ pdf_truncation_limit :=
  (extract_text_truncation [lit "ab"]).2.2.1 0 (by decide)

/-- C8: the placeholder gradient's endpoint colors are a pure function of
the prompt — equal prompts give equal colors, the start color depends only
on the first ten characters, and both endpoints follow the character-sum
hash with multipliers 123/456/789 mod 256 (the end color hashing the last
ten characters, or the whole prompt when it is short). -/
theorem placeholder_gradient_deterministic (p q : List Char) :
    (p = q → placeholder_gradient_colors p = placeholder_gradient_colors q) ∧
    (p.take 10 = q.take 10 →
      (placeholder_gradient_colors p).1 = (placeholder_gradient_colors q).1) ∧
    (placeholder_gradient_colors p).1
      = ((((p.take 10).map Char.toNat).sum * 123) % 256,
         (((p.take 10).map Char.toNat).sum * 456) % 256,
         (((p.take 10).map Char.toNat).sum * 789) % 256) ∧
    (placeholder_gradient_colors p).2
      = get_color_from_prompt
          (if 10 < p.length then p.drop (p.length - 10) else p) := by
  refine ⟨fun h => h ▸ rfl, fun h => ?_, rfl, rfl⟩
  simp only [placeholder_gradient_colors, get_color_from_prompt, h]

/-- Witness for C8: two runs on the same prompt produce identical gradient
colors. -/
theorem placeholder_gradient_deterministic_witness :
    placeholder_gradient_colors (lit "sunrise over mountains")
      = placeholder_gradient_colors (lit "sunrise over mountains") :=
  (placeholder_gradient_deterministic _ _).1 rfl

/-- C9: the recorded image dimensions are each at most 1200; an image
within the bound keeps its dimensions, an oversized one is scaled so that
its larger side becomes exactly 1200 and the other side is the
proportionally floored value. -/
theorem image_info_dimensions (w h : Nat) (fn fp b64 : List Char)
    (hw : 0 < w) (hh : 0 < h) :
    (load_image_info_from_pil w h fn fp b64).width ≤ max_dimension ∧
    (load_image_info_from_pil w h fn fp b64).height ≤ max_dimension ∧
    (w ≤ max_dimension → h ≤ max_dimension →
      (load_image_info_from_pil w h fn fp b64).width = w
      ∧ (load_image_info_from_pil w h fn fp b64).height = h) ∧
    (max_dimension < w ∨ max_dimension < h →
      (h < w →
        (load_image_info_from_pil w h fn fp b64).width = max_dimension
        ∧ (load_image_info_from_pil w h fn fp b64).height = h * max_dimension / w
        ∧ (load_image_info_from_pil w h fn fp b64).height * w ≤ h * max_dimension
        ∧ h * max_dimension < ((load_image_info_from_pil w h fn fp b64).height + 1) * w)
      ∧ (w ≤ h →
        (load_image_info_from_pil w h fn fp b64).height = max_dimension
        ∧ (load_image_info_from_pil w h fn fp b64).width = w * max_dimension / h)) := by
  by_cases hover : max_dimension < w ∨ max_dimension < h
  · by_cases hwh : h < w
    · have hwover : max_dimension < w := by
        rcases hover with hc | hc
        · exact hc
        · omega
      have hwdim : (load_image_info_from_pil w h fn fp b64).width = max_dimension := by
        simp [load_image_info_from_pil, resizeDims, hover, hwh]
      have hhdim : (load_image_info_from_pil w h fn fp b64).height
          = h * max_dimension / w := by
        simp [load_image_info_from_pil, resizeDims, hover, hwh]
      have hhle : h * max_dimension / w ≤ max_dimension := by
        have hlt : h * max_dimension < max_dimension * w := by
          simp only [max_dimension]
          omega
        exact le_of_lt ((Nat.div_lt_iff_lt_mul hw).mpr hlt)
      have hlow : (h * max_dimension / w) * w ≤ h * max_dimension := Nat.div_mul_le_self _ _
      have hhigh : h * max_dimension < (h * max_dimension / w + 1) * w := by
        have h1 := Nat.div_add_mod (h * max_dimension) w
        have h2 : (h * max_dimension) % w < w := Nat.mod_lt _ hw
        calc h * max_dimension
            = w * (h * max_dimension / w) + (h * max_dimension) % w := h1.symm
          _ < w * (h * max_dimension / w) + w := by omega
          _ = (h * max_dimension / w + 1) * w := by ring
      refine ⟨?_, ?_, ?_, ?_⟩
      · rw [hwdim]
      · rw [hhdim]; exact hhle
      · intro hwle _
        exact absurd hwle (by omega)
      · intro _
        refine ⟨fun _ => ⟨hwdim, hhdim, ?_, ?_⟩, fun hle => absurd hle (by omega)⟩
        · rw [hhdim]; exact hlow
        · rw [hhdim]; exact hhigh
    · have hwh' : w ≤ h := le_of_not_lt hwh
      have hhover : max_dimension < h := by
        rcases hover with hc | hc
        · omega
        · exact hc
      have hhdim : (load_image_info_from_pil w h fn fp b64).height = max_dimension := by
        simp [load_image_info_from_pil, resizeDims, hover, hwh]
      have hwdim : (load_image_info_from_pil w h fn fp b64).width
          = w * max_dimension / h := by
        simp [load_image_info_from_pil, resizeDims, hover, hwh]
      have hwle : w * max_dimension / h ≤ max_dimension := by
        rw [Nat.div_le_iff_le_mul_add_pred hh]
        have hmul : w * max_dimension ≤ h * max_dimension := by
          simp only [max_dimension]
          omega
        omega
      refine ⟨?_, ?_, ?_, ?_⟩
      · rw [hwdim]; exact hwle
      · rw [hhdim]
      · intro _ hhle
        exact absurd hhle (by omega)
      · intro _
        exact ⟨fun hlt => absurd hlt (by omega), fun _ => ⟨hhdim, hwdim⟩⟩
  · have hwle : w ≤ max_dimension := by omega
    have hhle : h ≤ max_dimension := by omega
    have hdims : (load_image_info_from_pil w h fn fp b64).width = w
        ∧ (load_image_info_from_pil w h fn fp b64).height = h := by
      constructor <;> simp [load_image_info_from_pil, resizeDims, hover]
    refine ⟨?_, ?_, fun _ _ => hdims, fun hc => absurd hc hover⟩
    · rw [hdims.1]; exact hwle
    · rw [hdims.2]; exact hhle

/-- Witness for C9: a 2400×600 image is recorded as 1200×300; a 800×600 one
is unchanged. -/
theorem image_info_dimensions_witness :
    (load_image_info_from_pil 2400 600 [] [] []).width ≤ max_dimension ∧
    (load_image_info_from_pil 800 600 [] [] []).width = 800 := by
  constructor
  · exact (image_info_dimensions 2400 600 [] [] [] (by decide) (by decide)).1
  · exact ((image_info_dimensions 800 600 [] [] [] (by decide) (by decide)).2.2.1
      (by decide) (by decide)).1

/-- C10: the text sent to the section-extraction model is truncated to
25,000 characters plus a truncation notice exactly when the extracted PDF
text is longer than that, and this effective limit is half the 50,000
character cap of the PDF extraction stage. -/
theorem section_extraction_input_truncation (t : List Char) :
    (extraction_input_limit < t.length →
      extract_key_sections_input t
        = lit "Document Content:\n\n"
          ++ (t.take extraction_input_limit ++ extractionTruncationNotice)) ∧
    (t.length ≤ extraction_input_limit →
      extract_key_sections_input t = lit "Document Content:\n\n" ++ t) ∧
    pdf_truncation_limit = 2 * extraction_input_limit := by
  refine ⟨?_, ?_, rfl⟩
  · intro hgt
    simp [extract_key_sections_input, hgt]
  · intro hle
    simp [extract_key_sections_input, Nat.not_lt.mpr hle]

/-- Witness for C10: a short text is passed through untruncated. -/
theorem section_extraction_input_truncation_witness :
    extract_key_sections_input (lit "ab") = lit "Document Content:\n\n" ++ lit "ab" :=
  (section_extraction_input_truncation (lit "ab")).2.1 (by decide)
